import Mathlib

/-!
Shallow embedding of the lackey request-handler library (src/lib/index.js)
and proofs about its query-translation and response-pipeline behaviour.

JavaScript values relevant to the embedded fragments are modelled with
explicit truthiness; environment primitives (JSON.parse, fs.readFile, the
Date parser, the options-parser package) are taken as parameters of the
embedded functions, exactly where the source calls out to them.
-/

namespace RequestHandler

/-- Error kinds raised by the library (common-errors package kinds plus the
native TypeError raised by a property read on null/undefined). Payloads keep
the structured data of the message (parameter or field names, bounds). -/
inductive JsErr where
  | argumentNull (param : String)
  | argumentError (field : String)
  | typeError (msg : String)
  | rangeError (msg : String)
  | notSupported (msg : String)
  | genericError (msg : String)
  | nativeTypeError (msg : String)
  deriving Repr, DecidableEq

/-! ### getFilter (src/lib/index.js lines 335-418) -/

/-- Structural worker for `splitOnChar`. -/
def splitOnCharGo (sep : Char) : List Char → List Char → List String
  | [], acc => [⟨acc.reverse⟩]
  | c :: cs, acc =>
    if c = sep then ⟨acc.reverse⟩ :: splitOnCharGo sep cs []
    else splitOnCharGo sep cs (c :: acc)

/-- JavaScript `str.split(sep)` for a one-character separator: the empty
string yields `[""]`, and a trailing separator yields a trailing empty
piece, exactly as in JavaScript. -/
def splitOnChar (sep : Char) (s : String) : List String :=
  splitOnCharGo sep s.data []

/-- Embedding of the JavaScript regular-expression match
`item.match(/(.+)\((.+)\)/)` used by getFilter to detect a type tag.
The pattern is unanchored with greedy groups: group 1 ends at the last
opening parenthesis that still leaves at least one character followed by a
closing parenthesis, group 2 ends before the last closing parenthesis. -/
def jsTypeMatch (s : String) : Option (String × String) :=
  let cs := s.data
  let n := cs.length
  let opens := (List.range n).filter (fun i =>
    decide (1 ≤ i) && (cs.getD i ' ' == '(') && ((cs.drop (i + 2)).contains ')'))
  match opens.getLast? with
  | none => none
  | some i =>
    let closes := (List.range n).filter (fun j => cs.getD j ' ' == ')')
    match closes.getLast? with
    | none => none
    | some j => some (⟨cs.take i⟩, ⟨(cs.drop (i + 1)).take (j - i - 1)⟩)

/-- Embedding of `/^[a-fA-F0-9]{24}$/.test(paramValue)`: exactly 24
hexadecimal characters. -/
def checkObjectId (v : String) : Bool :=
  v.length == 24 && v.data.all (fun c =>
    c.isDigit || ('a' ≤ c && c ≤ 'f') || ('A' ≤ c && c ≤ 'F'))

/-- One step of the `options[paramName].map(...)` callback in getFilter
(lines 354-382): an item with no type tag is returned as is; a tagged item
is validated (`ObjectId` against the 24-hex test, `Date` against the
environment's date parser `isValidDate`, standing for
`!isNaN(+new Date(paramValue))`) and replaced by `null` (here `none`) when
the value is invalid or the tag is not a supported type. -/
def castAlt (isValidDate : String → Bool) (v : String) (item : String) : Option String :=
  match jsTypeMatch item with
  | none => some item
  | some (ty, name) =>
    if ty = "ObjectId" then (if checkObjectId v then some name else none)
    else if ty = "Date" then (if isValidDate v then some name else none)
    else none

/-- The `.map(...).filter(item => item !== null)` pipeline of getFilter:
the surviving target fields for one parameter. -/
def survivors (isValidDate : String → Bool) (alts : List String) (v : String) : List String :=
  alts.filterMap (castAlt isValidDate v)

/-- JavaScript object property assignment `obj[k] = v` on a string-valued
object modelled as an ordered association list: an existing key keeps its
position and gets the new value, a new key is appended. -/
def objSet (obj : List (String × String)) (k v : String) : List (String × String) :=
  if obj.any (fun p => p.1 == k) then
    obj.map (fun p => if p.1 == k then (k, v) else p)
  else obj ++ [(k, v)]

/-- Mutable state threaded through getFilter's `paramNames.forEach` loop:
the direct single-field assignments made into `filter`, and the collected
`$orFilters` groups (each group is the list of `{field: value}` leaves of
one multi-alternative parameter). -/
structure GFState where
  direct : List (String × String)
  orFilters : List (List (String × String))
  deriving Repr, DecidableEq

/-- The body of getFilter's `paramNames.forEach(function (paramName) ...)`
(lines 342-405): missing or empty parameter value throws ArgumentNullError;
all alternatives dropped throws TypeError; exactly one survivor assigns
directly into the filter; two or more survivors append one `$or` group. -/
def processParam (isValidDate : String → Bool) (params : String → Option String)
    (st : GFState) (p : String × List String) : Except JsErr GFState :=
  match params p.1 with
  | none => .error (.argumentNull p.1)
  | some v =>
    if v = "" then .error (.argumentNull p.1)
    else
      match survivors isValidDate p.2 v with
      | [] => .error (.typeError p.1)
      | [f] => .ok { st with direct := objSet st.direct f v }
      | f₁ :: f₂ :: rest =>
        .ok { st with
          orFilters := st.orFilters ++ [(f₁ :: f₂ :: rest).map (fun f => (f, v))] }

/-- The root-level boolean composition of the produced filter: nothing, a
single `$or` list, or an `$and` of `$or` groups. -/
inductive FilterRoot where
  | empty
  | orRoot (alts : List (String × String))
  | andRoot (groups : List (List (String × String)))
  deriving Repr, DecidableEq

/-- The filter object produced by getFilter: direct `{field: value}`
assignments plus the boolean root. -/
structure Filter where
  direct : List (String × String)
  root : FilterRoot
  deriving Repr, DecidableEq

/-- getFilter's `paramNames.forEach` loop over the configured parameters in
declaration order: each iteration runs `processParam`; a thrown error
propagates out of the loop. -/
def runParams (isValidDate : String → Bool) (params : String → Option String) :
    List (String × List String) → GFState → Except JsErr GFState
  | [], st => .ok st
  | p :: rest, st =>
    match processParam isValidDate params st p with
    | .error e => .error e
    | .ok st1 => runParams isValidDate params rest st1

/-- Embedding of Obj.prototype.getFilter (lines 335-418). `options` is the
pre-parsed alternative-key mapping produced by the external options parser
(`optionsParser(opts).makeArray(true)`), in declaration order; `params` is
`req.params`. After the forEach loop, one collected group becomes the root
`$or` (line 408); several become an `$and` of `{$or: group}` objects
(lines 409-414). -/
def getFilter (isValidDate : String → Bool) (options : List (String × List String))
    (params : String → Option String) : Except JsErr Filter :=
  match runParams isValidDate params options ⟨[], []⟩ with
  | .error e => .error e
  | .ok st =>
    let root := match st.orFilters with
      | [] => FilterRoot.empty
      | [g] => FilterRoot.orRoot g
      | g₁ :: g₂ :: gs => FilterRoot.andRoot (g₁ :: g₂ :: gs)
    .ok { direct := st.direct, root := root }

/-- The per-parameter `$or` groups computed independently of the loop: for
each configured parameter whose value is present and which keeps two or
more surviving alternatives, the list of its `{field: value}` leaves. -/
def multiGroups (isValidDate : String → Bool) (options : List (String × List String))
    (params : String → Option String) : List (List (String × String)) :=
  options.filterMap (fun p =>
    match params p.1 with
    | none => none
    | some v =>
      match survivors isValidDate p.2 v with
      | f₁ :: f₂ :: rest => some ((f₁ :: f₂ :: rest).map (fun f => (f, v)))
      | _ => none)

/-! ### select (src/lib/index.js lines 441-494) -/

/-- State threaded through the `exclude.split(',').forEach` loop of select
(lines 476-491): the current field list and the `excludeWithDash` flag. -/
structure ExcState where
  fields : List String
  excludeWithDash : Bool
  deriving Repr, DecidableEq

/-- One iteration of select's exclude loop (lines 477-490): a field found
in the list is spliced out; a field not found is appended as `-field` when
the dash flag is already set or the list is empty (setting the flag);
otherwise the iteration does nothing. -/
def excludeStep (st : ExcState) (field : String) : ExcState :=
  match st.fields.findIdx? (· == field) with
  | some index => { st with fields := st.fields.take index ++ st.fields.drop (index + 1) }
  | none =>
    if st.excludeWithDash || st.fields.length == 0 then
      { fields := st.fields ++ ["-" ++ field], excludeWithDash := true }
    else st

/-- The whitelist membership check used in the select and include branches
(lines 454-459, 467-469): with a non-empty configured whitelist, a field
outside it throws ArgumentError naming the field. -/
def whiteListCheck (whiteList : Option (List String)) (field : String) : Except JsErr Unit :=
  match whiteList with
  | some wl =>
    if wl.length > 0 && !(wl.contains field) then .error (.argumentError field) else .ok ()
  | none => .ok ()

/-- One iteration of select's include loop (lines 464-473): a field not yet
present is whitelist-checked and appended. -/
def includeStep (whiteList : Option (List String)) (fields : List String)
    (field : String) : Except JsErr (List String) :=
  if fields.contains field then .ok fields
  else do
    whiteListCheck whiteList field
    return fields ++ [field]

/-- Embedding of Obj.prototype.select (lines 441-494). `opts` is the
space-separated default field string, `whiteList` the configured select
whitelist key list (`self.options.select.getKeys()`), and the three query
parameters model `req.query.select/include/exclude` (an empty string is
falsy in JavaScript and therefore behaves like an absent parameter). -/
def select (opts : Option String) (whiteList : Option (List String))
    (qselect qinclude qexclude : Option String) : Except JsErr String := do
  let fields0 : List String :=
    match opts with
    | some s => if s = "" then [] else splitOnChar ' ' s
    | none => []
  let fields1 ←
    match qselect with
    | some s =>
      if s = "" then pure fields0
      else do
        let fs := splitOnChar ',' s
        match whiteList with
        | some wl =>
          if wl.length > 0 then
            match fs.find? (fun f => !(wl.contains f)) with
            | some f => Except.error (.argumentError f)
            | none => pure fs
          else pure fs
        | none => pure fs
    | none => pure fields0
  let fields2 ←
    match qinclude with
    | some s =>
      if s = "" then pure fields1
      else (splitOnChar ',' s).foldlM (includeStep whiteList) fields1
    | none => pure fields1
  let fields3 :=
    match qexclude with
    | some s =>
      if s = "" then fields2
      else ((splitOnChar ',' s).foldl excludeStep ⟨fields2, false⟩).fields
    | none => fields2
  return " ".intercalate fields3

/-! ### handleError (src/lib/index.js lines 197-255) -/

/-- The own properties an error object may carry, as read by handleError.
`none` models an absent property (JavaScript `undefined`); a status of
`some 0` is falsy like an absent one. -/
structure ErrObjData where
  name : Option String
  message : Option String
  errors : Option String
  status : Option Nat
  deriving Repr, DecidableEq

/-- JavaScript values handed to the error handler: the falsy primitives,
strings/numbers/booleans, or an error-like object. -/
inductive JsVal where
  | vnull
  | vundefined
  | vbool (b : Bool)
  | vnum (n : Int)
  | vstr (s : String)
  | vobj (o : ErrObjData)
  deriving Repr, DecidableEq

/-- JavaScript truthiness of the modelled values. -/
def jsTruthy : JsVal → Bool
  | .vnull => false
  | .vundefined => false
  | .vbool b => b
  | .vnum n => n != 0
  | .vstr s => s != ""
  | .vobj _ => true

/-- A property read `err.prop`: throws a native TypeError on null or
undefined, yields `undefined` on the other primitives, and reads the
object field on an object. -/
def readProp {α : Type} (err : JsVal) (f : ErrObjData → Option α) :
    Except JsErr (Option α) :=
  match err with
  | .vnull => .error (.nativeTypeError "Cannot read properties of null")
  | .vundefined => .error (.nativeTypeError "Cannot read properties of undefined")
  | .vobj o => .ok (f o)
  | _ => .ok none

/-- The normalized error record handleError builds and renders. -/
structure ErrRecord where
  name : String
  message : String
  errors : Option String
  status : Nat
  deriving Repr, DecidableEq

/-- Observable outcome of a successful handleError call: the early return
on a falsy error, or a logged and rendered response carrying the record
whose status was also written with `res.status`. -/
inductive HEOutcome where
  | noop
  | responded (record : ErrRecord)
  deriving Repr, DecidableEq

/-- JavaScript truthiness of `err.status` (absent or 0 is falsy). -/
def truthyStatus : Option Nat → Bool
  | some n => n != 0
  | none => false

/-- The `switch (err.name)` block of handleError (lines 214-241), run when
`err.status` is falsy; an undefined name matches no case and falls to the
default 500. -/
def statusSwitch (name : Option String) : Nat :=
  if name = some "CastError" then 400
  else if name = some "ValidationError" then 400
  else if name = some "ArgumentError" then 400
  else if name = some "ArgumentNullError" then 400
  else if name = some "RangeError" then 400
  else if name = some "TypeError" then 400
  else if name = some "AuthenticationRequiredError" then 401
  else if name = some "NotPermittedError" then 403
  else if name = some "NotFoundError" then 404
  else if name = some "NotSupportedError" then 415
  else if name = some "MongoError" then 409
  else if name = some "AlreadyInUseError" then 409
  else 500

/-- Embedding of the closure returned by Obj.prototype.handleError
(lines 200-254). The `errObj` literal is evaluated before the falsy guard
`if (!err) return;`, so the property reads happen first and can throw; the
status switch on `err.name` (lines 214-241) runs only when `err.status` is
falsy. -/
def handleError (err : JsVal) : Except JsErr HEOutcome := do
  let nm ← readProp err (fun o => o.name)
  let msg ← readProp err (fun o => o.message)
  let ers ← readProp err (fun o => o.errors)
  let st ← readProp err (fun o => o.status)
  let recName := match nm with
    | some s => if s = "" then "InternalError" else s
    | none => "InternalError"
  let recMsg := match msg with
    | some s => if s = "" then "An unexpected error has occurred." else s
    | none => "An unexpected error has occurred."
  if jsTruthy err = false then
    return .noop
  else
    let status : Nat := if truthyStatus st then st.getD 0 else statusSwitch nm
    return .responded ⟨recName, recMsg, ers, status⟩

/-! ### getBody (src/lib/index.js lines 258-333) -/

/-- An uploaded file entry as getBody reads it (`mimetype`, `path`). -/
structure FileEntry where
  mimetype : String
  path : String
  deriving Repr, DecidableEq

/-- The `req.files` value: its enumerable own properties in order (what
`Object.keys(files)` and `files[name]` see) and its `length` property,
which is `undefined` (`none`) on a plain object keyed by field name and a
number on an array or array-like. -/
structure FilesVal where
  props : List (String × FileEntry)
  length? : Option Nat
  deriving Repr, DecidableEq

/-- The guard of getBody's upload branch, `files && files.length > 0`
(line 269): `undefined > 0` is false in JavaScript. -/
def filesLengthPositive : Option FilesVal → Bool
  | some f => match f.length? with
    | some n => n > 0
    | none => false
  | none => false

/-- The merge loop of getBody's application/json branch (lines 311-316):
properties of the request body are copied into the parsed file data only
where the parsed data has no value for the key, so on a collision the
file's value is kept. -/
def mergeBody (parsedData body : List (String × String)) : List (String × String) :=
  body.foldl (fun acc kv =>
    if acc.any (fun p => p.1 == kv.1) then acc else acc ++ [kv]) parsedData

/-- Embedding of Obj.prototype.getBody (lines 258-333). The outer `Except`
is the synchronous channel (a thrown error); the inner one is the deferred
promise (resolution or rejection). `readParse` stands for the environment's
`fs.readFile` followed by `JSON.parse` of an object: an error models a file
read failure (rejected as a FileNotFoundError carrying the path). -/
def getBody (files : Option FilesVal) (body : List (String × String))
    (readParse : String → Except Unit (List (String × String))) :
    Except JsErr (Except JsErr (List (String × String))) :=
  let fileNames : List String := match files with
    | some f => f.props.map (fun p : String × FileEntry => p.1)
    | none => []
  let firstFile : Option FileEntry := match files, fileNames.head? with
    | some f, some n => (f.props.find? (fun p : String × FileEntry => p.1 == n)).map
        (fun p : String × FileEntry => p.2)
    | _, _ => none
  if filesLengthPositive files then
    if fileNames.length > 1 then
      .error (.genericError "Only one file can be submitted at each time")
    else
      match firstFile with
      | none => .error (.nativeTypeError "Cannot read properties of undefined")
      | some file =>
        if file.mimetype = "application/json" then
          match readParse file.path with
          | .error _ => .ok (.error (.genericError file.path))
          | .ok parsedData => .ok (.ok (mergeBody parsedData body))
        else
          .error (.typeError "Unrecognized file type undefined")
  else
    .ok (.ok body)

/-! ### find (src/lib/index.js lines 420-438) -/

/-- JSON-like values as produced by `JSON.parse` with find's date reviver
(a revived date is a truthy object). -/
inductive JVal where
  | jnull
  | jbool (b : Bool)
  | jnum (n : Int)
  | jstr (s : String)
  | jarr (xs : List JVal)
  | jobj (fields : List (String × JVal))
  | jdate (ms : Int)
  deriving Repr

/-- JavaScript truthiness of a parsed JSON value. -/
def jvalTruthy : JVal → Bool
  | .jnull => false
  | .jbool b => b
  | .jnum n => n != 0
  | .jstr s => s != ""
  | _ => true

/-- Embedding of Obj.prototype.find (lines 420-438):
`(req.query.find && JSON.parse(req.query.find, reviver)) || {}`.
`parse` stands for the environment's `JSON.parse` with the date reviver
applied; a falsy query value or a falsy parse result yields the empty
filter object, and a parse error propagates. -/
def find (queryFind : Option String) (parse : String → Except JsErr JVal) :
    Except JsErr JVal :=
  match queryFind with
  | none => .ok (.jobj [])
  | some s =>
    if s = "" then .ok (.jobj [])
    else
      match parse s with
      | .error e => .error e
      | .ok v => .ok (if jvalTruthy v then v else .jobj [])

/-! ### handle404 and handle404.callNext (src/lib/index.js lines 138-195) -/

/-- The value a step of the response chain hands to the next step: an
ordinary data value (a thenable chain invokes the continuation on it), or
the `fakePromise` sentinel returned after a 404 write, whose `then` method
returns the sentinel again without ever invoking the continuation. -/
inductive Chainable where
  | value (v : JVal)
  | dead
  deriving Repr

/-- `.then(k)` on a chain value: an ordinary value feeds the continuation;
the dead sentinel ignores it and stays dead (lines 177-181). -/
def thenStep (c : Chainable) (k : JVal → Chainable) : Chainable :=
  match c with
  | .value v => k v
  | .dead => .dead

/-- Whether `.then` on this chain value ever invokes its continuation. -/
def thenInvokes : Chainable → Bool
  | .value _ => true
  | .dead => false

/-- The first token of a media item, `item.split(':')[0]` (line 154). -/
def tokenType (item : String) : String := (splitOnChar ':' item).headD ""

/-- The selected media item list of handle404 (line 144):
`(opts && opts.split(' ')) || Object.keys(handlers)`. -/
def mediaTypesOf (registry : List String) (opts : Option String) : List String :=
  match opts with
  | some s => if s = "" then registry else splitOnChar ' ' s
  | none => registry

/-- Observable outcome of one call of the closure returned by handle404:
the status codes written in order, whether `res.format` ran, and either the
returned chain value or a thrown error. -/
structure H404Out where
  statusWrites : List Nat
  formatRun : Bool
  outcome : Except JsErr Chainable
  deriving Repr

/-- Embedding of the closure returned by Obj.prototype.handle404
(lines 141-182). `registry` is the list of registered media-type tokens
(`Object.keys(handlers)`); truthy data passes through (line 146); otherwise
status 404 is written first (line 150), then each selected token is
resolved (an unknown one throws NotSupportedError, after the status write),
`res.format` responds, and the dead `fakePromise` sentinel is returned. -/
def handle404 (registry : List String) (opts : Option String) (data : JVal) : H404Out :=
  if jvalTruthy data then ⟨[], false, .ok (.value data)⟩
  else
    match (mediaTypesOf registry opts).find? (fun item => !(registry.contains (tokenType item))) with
    | some item => ⟨[404], false, .error (.notSupported (tokenType item))⟩
    | none => ⟨[404], true, .ok .dead⟩

/-- Observable outcome of one call of the closure returned by
handle404.callNext: whether a `next` continuation was invoked, the status
codes written, and the returned value (`none` is the implicit undefined)
or the thrown error. -/
structure CallNextOut where
  nextCalled : Bool
  statusWrites : List Nat
  outcome : Except JsErr (Option JVal)
  deriving Repr

/-- Embedding of the closure returned by Obj.prototype.handle404.callNext
(lines 185-195): truthy data passes through (lines 189-191); on falsy data
the closure evaluates `self.next()` (line 193), where `self` captured the
value `this` held when the factory ran. `thisNext` is that value's `next`
property: when it is a callable the continuation is invoked and the closure
returns undefined; when it is absent the call throws a native TypeError and
no continuation runs. No status is ever written on this path. -/
def handle404callNext (thisNext : Option Unit) (data : JVal) : CallNextOut :=
  if jvalTruthy data then ⟨false, [], .ok (some data)⟩
  else
    match thisNext with
    | some _ => ⟨true, [], .ok none⟩
    | none => ⟨false, [], .error (.nativeTypeError "self.next is not a function")⟩

/-- The `next` property of the value bound to `this` when the callNext
factory runs at its documented call site `o.handle404.callNext()`:
callNext is attached to the handle404 function object itself (line 185,
`Obj.prototype.handle404.callNext = function () {...}`), so `this` is that
function object, and a function object has no `next` property. -/
def handle404FunctionThisNext : Option Unit := none

/-! ### constructor options, limit and skip (src/lib/index.js lines 50-57,
536-557) -/

/-- The constructor's `+options.skip || 100` (line 53): an absent option or
one coercing to NaN is modelled as `none`, and `0` falls through to the
default just like NaN does. The limit option (line 52) has the identical
shape `+options.limit || 100`. -/
def numericOptionOr100 : Option Int → Int
  | some n => if n != 0 then n else 100
  | none => 100

/-- The `+self.req.query.skip || 0` coercion (line 550): absent or NaN or 0
becomes 0. -/
def queryNumOr0 : Option Int → Int
  | some n => if n != 0 then n else 0
  | none => 0

/-- Embedding of Obj.prototype.skip (lines 547-557): RangeError when the
configured ceiling is truthy (non-zero) and the requested skip exceeds
it. -/
def skipFn (maxSkip : Int) (querySkip : Option Int) : Except JsErr Int :=
  let skip := queryNumOr0 querySkip
  if maxSkip != 0 && skip > maxSkip then
    .error (.rangeError ("Skip has a maximum limit of " ++ toString maxSkip))
  else .ok skip

/-- Embedding of Obj.prototype.limit (lines 536-545): the effective limit
is the query value or the supplied default, and a RangeError is raised when
either the effective limit or the default exceeds the configured
ceiling. -/
def limitFn (maxLimit : Int) (queryLimit : Option Int) (defaultLimit : Int) :
    Except JsErr Int :=
  let lim := match queryLimit with
    | some n => if n != 0 then n else defaultLimit
    | none => defaultLimit
  if lim > maxLimit || defaultLimit > maxLimit then
    .error (.rangeError ("limit over the max " ++ toString maxLimit))
  else .ok lim

/-- The name-to-status table exactly as the specification words it (spec
section 4.5), written independently of the embedded switch so the two can
be compared: CastError, ValidationError, ArgumentError, ArgumentNullError,
RangeError, TypeError to 400; AuthenticationRequiredError to 401;
NotPermittedError to 403; NotFoundError to 404; NotSupportedError to 415;
MongoError and AlreadyInUseError to 409; anything else to 500. -/
def specStatusTable (name : Option String) : Nat :=
  if name = some "CastError" ∨ name = some "ValidationError" ∨
     name = some "ArgumentError" ∨ name = some "ArgumentNullError" ∨
     name = some "RangeError" ∨ name = some "TypeError" then 400
  else if name = some "AuthenticationRequiredError" then 401
  else if name = some "NotPermittedError" then 403
  else if name = some "NotFoundError" then 404
  else if name = some "NotSupportedError" then 415
  else if name = some "MongoError" ∨ name = some "AlreadyInUseError" then 409
  else 500

/-!
## Theorems
-/

/-- The embedded switch agrees with the status table as worded by the
specification, for every possible name. -/
lemma statusSwitch_eq_specStatusTable (name : Option String) :
    statusSwitch name = specStatusTable name := by
  by_cases h1 : name = some "CastError"
  · subst h1; decide
  by_cases h2 : name = some "ValidationError"
  · subst h2; decide
  by_cases h3 : name = some "ArgumentError"
  · subst h3; decide
  by_cases h4 : name = some "ArgumentNullError"
  · subst h4; decide
  by_cases h5 : name = some "RangeError"
  · subst h5; decide
  by_cases h6 : name = some "TypeError"
  · subst h6; decide
  by_cases h7 : name = some "AuthenticationRequiredError"
  · subst h7; decide
  by_cases h8 : name = some "NotPermittedError"
  · subst h8; decide
  by_cases h9 : name = some "NotFoundError"
  · subst h9; decide
  by_cases h10 : name = some "NotSupportedError"
  · subst h10; decide
  by_cases h11 : name = some "MongoError"
  · subst h11; decide
  by_cases h12 : name = some "AlreadyInUseError"
  · subst h12; decide
  simp only [statusSwitch, specStatusTable, h1, h2, h3, h4, h5, h6, h7, h8,
    h9, h10, h11, h12, if_neg, if_false, or_self, ite_false, or_false, false_or]

/-- C4: for every error object carrying no truthy explicit status, the
handler responds and the status it records and writes is given by the
error's name exactly as the specification's table states. -/
theorem handleError_status_by_name (o : ErrObjData)
    (h : truthyStatus o.status = false) :
    ∃ r : ErrRecord, handleError (.vobj o) = .ok (.responded r) ∧
      r.status = specStatusTable o.name := by
  refine ⟨_, rfl, ?_⟩
  simp [handleError, readProp, jsTruthy, h, statusSwitch_eq_specStatusTable]

/-- Witness for C4: a NotFoundError with no explicit status is responded
to with status 404. -/
theorem handleError_status_by_name_witness :
    truthyStatus (ErrObjData.mk (some "NotFoundError") none none none).status = false ∧
    ∃ r : ErrRecord,
      handleError (.vobj ⟨some "NotFoundError", none, none, none⟩) = .ok (.responded r) ∧
      r.status = specStatusTable (some "NotFoundError") :=
  ⟨rfl, handleError_status_by_name ⟨some "NotFoundError", none, none, none⟩ rfl⟩

/-- C7: evaluation of handleError at every falsy JavaScript value. The
`errObj` property reads happen before the `if (!err) return;` guard, so
null and undefined make the handler itself throw a native TypeError instead
of returning silently; the other falsy primitives do reach the early
return. -/
theorem handleError_falsy_behaviour :
    handleError .vnull = .error (.nativeTypeError "Cannot read properties of null") ∧
    handleError .vundefined =
      .error (.nativeTypeError "Cannot read properties of undefined") ∧
    handleError (.vbool false) = .ok .noop ∧
    handleError (.vnum 0) = .ok .noop ∧
    handleError (.vstr "") = .ok .noop :=
  ⟨rfl, rfl, rfl, rfl, rfl⟩

/-- C5: with exactly one uploaded application/json file, the merge keeps
the file's value on a key collision — the request body's value for `a` is
discarded, contrary to the claim (and to the source's own comment on
lines 267-268) that body properties overwrite the file's. -/
theorem getBody_merge_file_wins :
    getBody (some ⟨[("upload", ⟨"application/json", "/tmp/data.json"⟩)], some 1⟩)
        [("a", "bodyValue")] (fun _ => .ok [("a", "fileValue")])
      = .ok (.ok [("a", "fileValue")]) :=
  rfl

/-- C10: when `req.files` is present but its `length` property is absent
(a plain object keyed by field name), the upload branch is skipped and
getBody resolves with the raw body, for every possible file content —
no file is read and no merge happens. -/
theorem getBody_plain_object_files (files : FilesVal)
    (body : List (String × String)) (h : files.length? = none) :
    ∀ readParse : String → Except Unit (List (String × String)),
      getBody (some files) body readParse = .ok (.ok body) := by
  intro readParse
  simp [getBody, filesLengthPositive, h]

/-- Witness for C10: a single field-keyed file entry without a length
property passes the body through. -/
theorem getBody_plain_object_files_witness :
    getBody (some ⟨[("doc", ⟨"application/json", "/x"⟩)], none⟩) [("k", "v")]
        (fun _ => .error ())
      = .ok (.ok [("k", "v")]) :=
  getBody_plain_object_files ⟨[("doc", ⟨"application/json", "/x"⟩)], none⟩
    [("k", "v")] rfl (fun _ => .error ())

/-- C9: a present find query parameter whose JSON parse yields a falsy
value produces the empty filter object, exactly as an absent parameter
does. -/
theorem find_falsy_parse (s : String) (parse : String → Except JsErr JVal)
    (v : JVal) (hs : s ≠ "") (hp : parse s = .ok v)
    (hf : jvalTruthy v = false) :
    find (some s) parse = .ok (.jobj []) ∧ find none parse = .ok (.jobj []) := by
  constructor
  · simp [find, hs, hp, hf]
  · rfl

/-- Witness for C9: the string "null" parses to JSON null, which is falsy,
so find returns the empty filter. -/
theorem find_falsy_parse_witness :
    ("null" : String) ≠ "" ∧
    find (some "null") (fun _ => .ok .jnull) = .ok (.jobj []) :=
  ⟨by decide,
   (find_falsy_parse "null" (fun _ => .ok .jnull) .jnull (by decide) rfl rfl).1⟩

/-- C8 counterexample: with no skip option configured, the constructor
still installs the default ceiling 100 (`+options.skip || 100`, line 53),
so a query skip of 500 raises RangeError — refuting the claim that skip has
no ceiling when its option is absent. -/
theorem skip_default_ceiling_cex :
    skipFn (numericOptionOr100 none) (some 500)
      = .error (.rangeError "Skip has a maximum limit of 100") :=
  rfl

/-- C8 as amended: when the skip option is absent the constructor defaults
the skip ceiling to 100 exactly like the limit ceiling, skip() raises
RangeError for any query skip above 100, and returns any skip between 0
and 100. -/
theorem skip_default_ceiling (n : Int) :
    numericOptionOr100 none = 100 ∧
    (100 < n →
      skipFn (numericOptionOr100 none) (some n)
        = .error (.rangeError "Skip has a maximum limit of 100")) ∧
    (0 ≤ n → n ≤ 100 → skipFn (numericOptionOr100 none) (some n) = .ok n) := by
  refine ⟨rfl, ?_, ?_⟩
  · intro hgt
    have hne : n ≠ 0 := by omega
    simp [skipFn, numericOptionOr100, queryNumOr0, hne, hgt]
    rfl
  · intro h0 h100
    by_cases hz : n = 0
    · subst hz; rfl
    · simp [skipFn, numericOptionOr100, queryNumOr0, hz]
      omega

/-- Witness for C8: skip 200 against the default ceiling raises, skip 30
is returned. -/
theorem skip_default_ceiling_witness :
    ((100 : Int) < 200 →
      skipFn (numericOptionOr100 none) (some 200)
        = .error (.rangeError "Skip has a maximum limit of 100")) ∧
    ((0 : Int) ≤ 30 → (30 : Int) ≤ 100 →
      skipFn (numericOptionOr100 none) (some 30) = .ok 30) :=
  ⟨(skip_default_ceiling 200).2.1, (skip_default_ceiling 30).2.2⟩

/-- One exclude iteration never clears the dash flag. -/
lemma excludeStep_dash_mono (st : ExcState) (field : String)
    (h : st.excludeWithDash = true) :
    (excludeStep st field).excludeWithDash = true := by
  unfold excludeStep
  cases hf : st.fields.findIdx? (· == field) with
  | none => simp [h]
  | some i => simpa using h

/-- The dash flag persists across any remainder of the exclude loop. -/
lemma foldl_excludeStep_dash_mono (rest : List String) :
    ∀ st : ExcState, st.excludeWithDash = true →
      (rest.foldl excludeStep st).excludeWithDash = true := by
  induction rest with
  | nil => intro st h; exact h
  | cons f rest ih =>
    intro st h
    rw [List.foldl_cons]
    exact ih _ (excludeStep_dash_mono st f h)

/-- C2 counterexample: with default fields `a b` and exclude list `c`, the
field `c` is not found while the set is non-empty and dash mode is off, so
the iteration does nothing: `c` is silently dropped (the result is "a b",
not "a b -c"), refuting the claim that a failed removal switches to dash
mode and that no excluded field is silently dropped. -/
theorem select_exclude_silent_drop_cex :
    select (some "a b") none none none (some "c") = .ok "a b" :=
  rfl

/-- C2 as amended: dash mode is entered by a failed removal only when the
current field set is empty (or dash mode is already on); once on, it
persists for the remainder of exclude processing and every later not-found
field is appended as `-field`; a field not found while the set is non-empty
with dash mode off is silently ignored. -/
theorem exclude_dash_mode (st : ExcState) (field : String) (rest : List String) :
    (st.fields.findIdx? (· == field) = none →
      ((st.excludeWithDash = true ∨ st.fields = []) →
        excludeStep st field = ⟨st.fields ++ ["-" ++ field], true⟩) ∧
      (st.excludeWithDash = false → st.fields ≠ [] → excludeStep st field = st)) ∧
    (st.excludeWithDash = true →
      (rest.foldl excludeStep st).excludeWithDash = true) := by
  constructor
  · intro hnf
    constructor
    · intro hor
      unfold excludeStep
      rw [hnf]
      have hcond : (st.excludeWithDash || st.fields.length == 0) = true := by
        rcases hor with h | h
        · simp [h]
        · simp [h]
      simp [hcond]
    · intro hd hne
      unfold excludeStep
      rw [hnf]
      have hcond : (st.excludeWithDash || st.fields.length == 0) = false := by
        simp [hd, List.length_eq_zero]
        exact hne
      simp [hcond]
  · exact fun h => foldl_excludeStep_dash_mono rest st h

/-- Witness for C2 (amended): in dash mode, a not-found field is appended
with a dash, and the dash flag survives further iterations. -/
theorem exclude_dash_mode_witness :
    excludeStep ⟨["x"], true⟩ "y" = ⟨["x", "-y"], true⟩ ∧
    ((["z"].foldl excludeStep ⟨["x"], true⟩).excludeWithDash = true) :=
  ⟨((exclude_dash_mode ⟨["x"], true⟩ "y" ["z"]).1 (by decide)).1 (Or.inl rfl),
   (exclude_dash_mode ⟨["x"], true⟩ "y" ["z"]).2 rfl⟩

/-- C6: the handle404 half of the claim holds — once the returned closure
sees falsy data it writes the 404 and responds, and the value it returns is
the dead sentinel: its `then` never invokes a continuation and any chain of
`then` steps stays dead, so no subsequent chained step ever runs. The
callNext half fails in the code: at the documented call
`o.handle404.callNext()` the factory's `this` is the handle404 function
object, whose `next` property is undefined, so on falsy data the closure
throws a native TypeError instead of invoking the upstream continuation —
no continuation runs, though it indeed writes no response. -/
theorem handle404_dead_chain (registry : List String) (opts : Option String)
    (data : JVal) (hd : jvalTruthy data = false)
    (hvalid : (mediaTypesOf registry opts).all
      (fun item => registry.contains (tokenType item)) = true) :
    handle404 registry opts data = ⟨[404], true, .ok .dead⟩ ∧
    (∀ k, thenStep .dead k = .dead) ∧
    (∀ ks : List (JVal → Chainable), ks.foldl thenStep .dead = .dead) ∧
    thenInvokes .dead = false ∧
    handle404callNext handle404FunctionThisNext data
      = ⟨false, [], .error (.nativeTypeError "self.next is not a function")⟩ := by
  refine ⟨?_, fun k => rfl, ?_, rfl, ?_⟩
  · unfold handle404
    rw [if_neg (by simp [hd])]
    have hfind : (mediaTypesOf registry opts).find?
        (fun item => !(registry.contains (tokenType item))) = none := by
      rw [List.find?_eq_none]
      intro x hx
      have hall := List.all_eq_true.mp hvalid x hx
      simpa using hall
    rw [hfind]
  · intro ks
    induction ks with
    | nil => rfl
    | cons k ks ih => simpa [thenStep] using ih
  · unfold handle404callNext handle404FunctionThisNext
    rw [if_neg (by simp [hd])]

/-- Witness for C6: registry html/json, no opts, data null: the 404 is
written and the dead sentinel returned, while the callNext closure throws
the native TypeError without invoking any continuation. -/
theorem handle404_dead_chain_witness :
    handle404 ["html", "json"] none .jnull = ⟨[404], true, .ok .dead⟩ ∧
    handle404callNext handle404FunctionThisNext .jnull
      = ⟨false, [], .error (.nativeTypeError "self.next is not a function")⟩ :=
  ⟨(handle404_dead_chain ["html", "json"] none .jnull rfl (by decide)).1,
   (handle404_dead_chain ["html", "json"] none .jnull rfl (by decide)).2.2.2.2⟩

/-- C3 counterexample: an untyped alternative (`slug`, no type tag) is kept
as-is, not dropped — getFilter succeeds with a direct `{slug: value}`
constraint, where the claim (all alternatives untyped, hence all dropped)
would require a thrown TypeError. -/
theorem getFilter_untyped_kept_cex :
    getFilter (fun _ => false) [("id", ["slug"])]
        (fun n => if n = "id" then some "abc" else none)
      = .ok ⟨[("slug", "abc")], .empty⟩ :=
  rfl

/-- C3 as amended: an alternative carrying a supported type tag (ObjectId
or Date) is validated against that type's syntax and dropped when the raw
value is invalid; a tag outside the supported set is dropped; but an
untyped alternative is always kept as-is; and dropping never fails the
parameter as long as at least one alternative survives. -/
theorem castAlt_validation (d : String → Bool) (v item ty nm p : String)
    (alts : List String) (st : GFState) :
    (jsTypeMatch item = some (ty, nm) → ty ≠ "ObjectId" → ty ≠ "Date" →
      castAlt d v item = none) ∧
    (jsTypeMatch item = some ("ObjectId", nm) →
      castAlt d v item = (if checkObjectId v then some nm else none)) ∧
    (jsTypeMatch item = some ("Date", nm) →
      castAlt d v item = (if d v then some nm else none)) ∧
    (jsTypeMatch item = none → castAlt d v item = some item) ∧
    (v ≠ "" → survivors d alts v ≠ [] →
      ∃ st2, processParam d (fun _ => some v) st (p, alts) = .ok st2) := by
  refine ⟨?_, ?_, ?_, ?_, ?_⟩
  · intro hm h1 h2
    simp [castAlt, hm, h1, h2]
  · intro hm
    simp [castAlt, hm]
  · intro hm
    simp [castAlt, hm]
  · intro hm
    simp [castAlt, hm]
  · intro hv hs
    rcases hsv : survivors d alts v with _ | ⟨f1, rest⟩
    · exact absurd hsv hs
    · rcases rest with _ | ⟨f2, rest2⟩
      · exact ⟨{ st with direct := objSet st.direct f1 v },
          by simp [processParam, hv, hsv]⟩
      · exact ⟨{ st with orFilters :=
            st.orFilters ++ [(f1 :: f2 :: rest2).map (fun f => (f, v))] },
          by simp [processParam, hv, hsv]⟩

/-- Witness for C3 (amended): an ObjectId-tagged alternative with an
invalid value is dropped, an untyped one is kept, and the parameter still
succeeds because the untyped alternative survives. -/
theorem castAlt_validation_witness :
    castAlt (fun _ => false) "zz" "ObjectId(_id)"
      = (if checkObjectId "zz" then some "_id" else none) ∧
    castAlt (fun _ => false) "zz" "slug" = some "slug" ∧
    ∃ st2, processParam (fun _ => false) (fun _ => some "zz") ⟨[], []⟩
        ("id", ["ObjectId(_id)", "slug"]) = .ok st2 :=
  ⟨(castAlt_validation (fun _ => false) "zz" "ObjectId(_id)" "ObjectId" "_id"
      "id" ["ObjectId(_id)", "slug"] ⟨[], []⟩).2.1 (by decide),
   (castAlt_validation (fun _ => false) "zz" "slug" "ObjectId" "_id"
      "id" ["ObjectId(_id)", "slug"] ⟨[], []⟩).2.2.2.1 (by decide),
   (castAlt_validation (fun _ => false) "zz" "ObjectId(_id)" "ObjectId" "_id"
      "id" ["ObjectId(_id)", "slug"] ⟨[], []⟩).2.2.2.2 (by decide) (by decide)⟩

/-- Loop invariant of getFilter: on success, the collected `$orFilters`
groups are exactly the initial ones followed by one group per
multi-survivor parameter, in parameter declaration order. -/
lemma runParams_orFilters (d : String → Bool) (params : String → Option String) :
    ∀ (options : List (String × List String)) (st st2 : GFState),
      runParams d params options st = .ok st2 →
      st2.orFilters = st.orFilters ++ multiGroups d options params := by
  intro options
  induction options with
  | nil =>
    intro st st2 h
    simp only [runParams] at h
    cases h
    simp [multiGroups]
  | cons p rest ih =>
    intro st st2 h
    simp only [runParams] at h
    split at h
    · cases h
    · rename_i st1 hp
      have h2 := ih st1 st2 h
      unfold processParam at hp
      split at hp
      · cases hp
      · rename_i v hpv
        split at hp
        · cases hp
        · rename_i hv
          split at hp
          · cases hp
          · rename_i f hsv
            cases hp
            rw [h2]
            simp [multiGroups, List.filterMap_cons, hpv, hsv]
          · rename_i f1 f2 rest2 hsv
            cases hp
            rw [h2]
            simp [multiGroups, List.filterMap_cons, hpv, hsv]

/-- C1: on every successful getFilter invocation, when exactly one
parameter keeps two or more surviving alternatives, the filter root is that
parameter's group directly under `$or`; when two or more parameters do, the
root is an `$and` holding exactly those per-parameter `$or` groups in
order, never merged into one flat list. -/
theorem getFilter_root_composition (d : String → Bool)
    (options : List (String × List String)) (params : String → Option String)
    (f : Filter) (h : getFilter d options params = .ok f) :
    (∀ g, multiGroups d options params = [g] → f.root = .orRoot g) ∧
    (∀ g₁ g₂ gs, multiGroups d options params = g₁ :: g₂ :: gs →
      f.root = .andRoot (g₁ :: g₂ :: gs)) := by
  unfold getFilter at h
  split at h
  · cases h
  · rename_i st hrun
    cases h
    have horf := runParams_orFilters d params options ⟨[], []⟩ st hrun
    simp only [List.nil_append] at horf
    constructor
    · intro g hg
      rw [hg] at horf
      simp [horf]
    · intro g₁ g₂ gs hg
      rw [hg] at horf
      simp [horf]

/-- Witness for C1: two parameters each keeping two untyped alternatives
produce an `$and` of the two per-parameter `$or` groups. -/
theorem getFilter_root_composition_witness :
    (Filter.mk []
        (.andRoot [[("a", "1"), ("b", "1")], [("c", "2"), ("d", "2")]])).root
      = .andRoot [[("a", "1"), ("b", "1")], [("c", "2"), ("d", "2")]] :=
  (getFilter_root_composition (fun _ => true) [("p", ["a", "b"]), ("q", ["c", "d"])]
      (fun n => if n = "p" then some "1" else if n = "q" then some "2" else none)
      (Filter.mk [] (.andRoot [[("a", "1"), ("b", "1")], [("c", "2"), ("d", "2")]]))
      rfl).2
    [("a", "1"), ("b", "1")] [("c", "2"), ("d", "2")] [] rfl

end RequestHandler
